import Mathlib

/-!
Shallow embedding of `src/main.go` (easy-httpserver-mock): a mock HTTP
server that loads a YAML declaration of services/endpoints, registers a
gin route per endpoint serving the bytes of a response file, and watches
the declaration and response files with fsnotify, reloading the config
struct on Write events.

Modelling conventions:
* The filesystem is an association list from path strings to file
  contents; a missing key models an unreadable/absent file
  (`ioutil.ReadFile` error).
* `filepath.Abs` resolves a path against the process working directory;
  the model keys the filesystem by the path strings the program uses and
  takes this resolution to be the identity on them.
* YAML parsing (`yaml.Unmarshal`, external library `gopkg.in/yaml.v2`)
  is a pure function `bytes → Config` or a parse error; it is a
  parameter `parse` of the definitions that load configuration.
* The gin engine (external library `github.com/gin-gonic/gin`) is
  modelled as the list of registered routes, each carrying the
  `responseFile` string its handler closure captured at registration
  time.  gin's `addRoute` panics when a handler is registered for a
  (method, path) that already has one ("handlers are already registered
  for path ..."); the panic is modelled as `Except.error`.  Routes in
  the source are plain literal paths, so route matching is exact string
  equality on the full path.
* Log output (`log.Printf`) is accumulated in a list of strings;
  `log.Fatalf` terminates the process and is modelled as `Except.error`.
-/

/-- The `Endpoint` struct of `main.go`: one declared endpoint. -/
structure Endpoint where
  path : String
  method : String
  responseFile : String
deriving DecidableEq

/-- The `Service` struct of `main.go`: a named service with a base path. -/
structure Service where
  name : String
  basePath : String
  endpoints : List Endpoint
deriving DecidableEq

/-- The `Config` struct of `main.go`: the parsed declaration file. -/
structure Config where
  services : List Service
deriving DecidableEq

/-- Filesystem model: paths mapped to file contents; absent = unreadable. -/
def FS : Type := List (String × String)

/-- Model of `ioutil.ReadFile`: contents of the file, or an error for a missing path. -/
def readFileFS (fs : FS) (p : String) : Except String String :=
  match List.lookup p fs with
  | some data => .ok data
  | none => .error ("open " ++ p ++ ": no such file or directory")

/-- Whether a path exists in the filesystem (used by `fsnotify.Add`). -/
def fsExists (fs : FS) (p : String) : Bool :=
  (List.lookup p fs).isSome

/-- Model of `filepath.Abs`: resolution against the working directory, taken as the
identity on the path strings the program uses (see module docstring). -/
def filepathAbs (p : String) : String := p

/-- Function `readJSONFile` of `main.go`: resolve the path with `filepath.Abs`, then
read the file, propagating any read error. -/
def readJSONFile (fs : FS) (filePath : String) : Except String String :=
  readFileFS fs (filepathAbs filePath)

/-- Function `loadConfig` of `main.go`: read the declaration file and parse it
(`yaml.Unmarshal` is the external pure function `parse`), propagating
either the read error or the parse error. -/
def loadConfig (parse : String → Except String Config) (fs : FS)
    (filename : String) : Except String Config :=
  match readFileFS fs filename with
  | .error e => .error e
  | .ok data => parse data

/-- One registered gin route: the method and full path it was registered
under, and the `responseFile` string captured by its handler closure. -/
structure Route where
  method : String
  fullPath : String
  responseFile : String
deriving DecidableEq

/-- Two routes collide when they share method and full path (the RouteKey). -/
def routeKeyEq (r q : Route) : Bool :=
  r.method == q.method && r.fullPath == q.fullPath

/-- gin `Engine.addRoute` (external library): registering a handler for a
(method, path) that already has handlers panics with "handlers are already
registered for path ..."; otherwise the route is appended to the tree. -/
def addRoute (engine : List Route) (r : Route) : Except String (List Route) :=
  if engine.any (routeKeyEq r) then
    .error ("handlers are already registered for path " ++ r.fullPath)
  else
    .ok (engine ++ [r])

/-- Inner loop of `setupRouter`: for each endpoint of a service, compute
`fullPath := service.BasePath + endpoint.Path`, capture
`responseFile := endpoint.ResponseFile`, and register a handler via
`r.GET` / `r.POST`; the `switch` has no other case, so any other method
falls through with no registration and no log. -/
def registerEndpoints (engine : List Route) (basePath : String) :
    List Endpoint → Except String (List Route)
  | [] => .ok engine
  | e :: rest =>
    let fullPath := basePath ++ e.path
    let responseFile := e.responseFile
    if e.method = "GET" then
      match addRoute engine ⟨"GET", fullPath, responseFile⟩ with
      | .error err => .error err
      | .ok engine2 => registerEndpoints engine2 basePath rest
    else if e.method = "POST" then
      match addRoute engine ⟨"POST", fullPath, responseFile⟩ with
      | .error err => .error err
      | .ok engine2 => registerEndpoints engine2 basePath rest
    else registerEndpoints engine basePath rest

/-- Outer loop of `setupRouter`: iterate the services in declared order. -/
def registerServices (engine : List Route) :
    List Service → Except String (List Route)
  | [] => .ok engine
  | s :: rest =>
    match registerEndpoints engine s.basePath s.endpoints with
    | .error err => .error err
    | .ok engine2 => registerServices engine2 rest

/-- Function `setupRouter` of `main.go`: build a gin engine and register one route
per supported endpoint; an error models a gin panic during registration. -/
def setupRouter (config : Config) : Except String (List Route) :=
  registerServices [] config.services

/-- An HTTP response as produced by the gin handlers. -/
structure HttpResponse where
  status : Nat
  contentType : String
  body : String
deriving DecidableEq

/-- Body of `c.JSON(500, gin.H\x7b"error": err.Error()\x7d)`. -/
def jsonErrorBody (msg : String) : String :=
  "\x7b\"error\":\"" ++ msg ++ "\"\x7d"

/-- gin's default response for an unmatched route. -/
def notFoundResponse : HttpResponse :=
  { status := 404, contentType := "text/plain", body := "404 page not found" }

/-- Behaviour of the handler closure registered in `setupRouter` for one
route: read the captured `responseFile` fresh from disk; on error respond
`c.JSON(500, gin.H\x7b"error": err.Error()\x7d)`, otherwise
`c.Data(200, "application/json", data)`. -/
def runHandler (fs : FS) (responseFile : String) : HttpResponse :=
  match readJSONFile fs responseFile with
  | .error e => { status := 500, contentType := "application/json",
                  body := jsonErrorBody e }
  | .ok data => { status := 200, contentType := "application/json", body := data }

/-- gin request dispatch over the registered routes: find the route whose
(method, full path) matches the request exactly and run its handler;
otherwise gin's default 404. -/
def dispatch (engine : List Route) (fs : FS) (method path : String) :
    HttpResponse :=
  match engine.find? (fun r => r.method == method && r.fullPath == path) with
  | some r => runHandler fs r.responseFile
  | none => notFoundResponse

/-- The mutable process state of `main`: the gin engine built once at
startup (whose handler closures never change), the `config` struct the
watcher goroutine overwrites on reload, the set of fsnotify-watched
paths, and the `log` output. -/
structure ServerState where
  engine : List Route
  config : Config
  watched : List String
  logs : List String
deriving DecidableEq

/-- Serving one request only consults the engine's startup-time closures
and the disk; it never reads `config` and never modifies any state. -/
def serveRequest (st : ServerState) (fs : FS) (method path : String) :
    HttpResponse × ServerState :=
  (dispatch st.engine fs method path, st)

/-- Declaration file path hard-coded in `main.go`. -/
def declPath : String := "./config.yaml"

/-- Model of `fsnotify.Watcher.Add`: watching a path that does not exist fails
(returns an error); a successful add inserts the path into the watch set. -/
def watcherAdd (fs : FS) (watched : List String) (p : String) :
    Except String (List String) :=
  if fsExists fs p then
    .ok (if p ∈ watched then watched else watched ++ [p])
  else
    .error ("no such file or directory: " ++ p)

/-- Startup loop of `main` adding every endpoint's response file to the
watcher; an add failure is only logged ("Failed to watch response file"). -/
def watchResponseFiles (fs : FS) : List Service → List String × List String →
    List String × List String
  | [], acc => acc
  | s :: rest, acc =>
    let acc2 := s.endpoints.foldl (fun (acc : List String × List String) e =>
      match watcherAdd fs acc.1 e.responseFile with
      | .ok w => (w, acc.2)
      | .error err =>
        (acc.1, acc.2 ++ ["Failed to watch response file " ++ e.responseFile
          ++ ": " ++ err])) acc
    watchResponseFiles fs rest acc2

/-- Startup sequence of `main` up to the point the watcher goroutine and
listener start: load the declaration (a failure is `log.Fatalf`, fatal),
build the router (a gin registration panic is also fatal), watch the
declaration file (failure only logged) and every response file of the
startup config (failures only logged). -/
def startup (parse : String → Except String Config) (fs : FS) :
    Except String ServerState :=
  match loadConfig parse fs declPath with
  | .error e => .error ("Failed to load config: " ++ e)
  | .ok config =>
    match setupRouter config with
    | .error e => .error e
    | .ok engine =>
      let (w1, l1) :=
        match watcherAdd fs [] declPath with
        | .ok w => (w, ([] : List String))
        | .error err => ([], ["Failed to watch config file: " ++ err])
      let (watched, logs) := watchResponseFiles fs config.services (w1, l1)
      .ok { engine := engine, config := config, watched := watched, logs := logs }

/-- fsnotify operation bits, in `fsnotify`'s declaration order. -/
def opCreate : Nat := 1
/-- fsnotify Write bit. -/
def opWrite : Nat := 2
/-- fsnotify Remove bit. -/
def opRemove : Nat := 4
/-- fsnotify Rename bit. -/
def opRename : Nat := 8
/-- fsnotify Chmod bit. -/
def opChmod : Nat := 16

/-- An fsnotify event: the path it concerns and its operation bitmask. -/
structure FsEvent where
  name : String
  op : Nat
deriving DecidableEq

/-- One iteration of the watcher goroutine of `main` on an event from
`watcher.Events`: when the event's op has the Write bit
(`event.Op&fsnotify.Write == fsnotify.Write`), log "File modified" and
re-run `loadConfig` on the declaration path; on a load error, log
"Failed to reload config" and `continue`; on success, overwrite the
config struct (`*config = *newConfig`).  No branch touches the gin
engine or the watch set, and no branch can terminate the process, so the
step always returns `.ok` (the `Except` mirrors `startup`, whose load
failure is fatal). -/
def watcherStep (parse : String → Except String Config) (fs : FS)
    (st : ServerState) (ev : FsEvent) : Except String ServerState :=
  if ev.op &&& opWrite == opWrite then
    let st1 := { st with logs := st.logs ++ ["File modified: " ++ ev.name] }
    match loadConfig parse fs declPath with
    | .error e =>
      .ok { st1 with logs := st1.logs ++ ["Failed to reload config: " ++ e] }
    | .ok newConfig => .ok { st1 with config := newConfig }
  else
    .ok st

/-- Demo endpoint of the spec's dispatch example: GET /ping served from
ping.json. -/
def pingEndpoint : Endpoint :=
  { path := "/ping", method := "GET", responseFile := "ping.json" }

/-- Startup declaration: one service at /api with the ping endpoint. -/
def configV1 : Config :=
  { services := [{ name := "demo", basePath := "/api",
                   endpoints := [pingEndpoint] }] }

/-- Edited declaration: the same route now points at pong.json. -/
def configV2 : Config :=
  { services := [{ name := "demo", basePath := "/api",
                   endpoints := [{ path := "/ping", method := "GET",
                                   responseFile := "pong.json" }] }] }

/-- Declaration with two endpoints compiling to the same RouteKey
(GET /api/ping) with different response files. -/
def configDup : Config :=
  { services := [{ name := "demo", basePath := "/api",
                   endpoints := [{ path := "/ping", method := "GET",
                                   responseFile := "a.json" },
                                 { path := "/ping", method := "GET",
                                   responseFile := "b.json" }] }] }

/-- Declaration with a supported and an unsupported-method endpoint. -/
def configUnsup : Config :=
  { services := [{ name := "demo", basePath := "/api",
                   endpoints := [pingEndpoint,
                                 { path := "/weird", method := "PUT",
                                   responseFile := "weird.json" }] }] }

/-- Concrete instantiation of the external YAML parser: maps four fixed
declaration texts to the fixtures above, anything else is malformed. -/
def demoParse : String → Except String Config := fun s =>
  if s = "decl-v1" then .ok configV1
  else if s = "decl-v2" then .ok configV2
  else if s = "decl-dup" then .ok configDup
  else if s = "decl-unsup" then .ok configUnsup
  else .error "yaml: unmarshal errors"

/-- Disk at startup: declaration text decl-v1 plus both response files. -/
def fsV1 : FS :=
  [(declPath, "decl-v1"),
   ("ping.json", "\x7b\"ok\":true\x7d"),
   ("pong.json", "\x7b\"pong\":true\x7d")]

/-- Disk after the edit: the declaration now reads decl-v2. -/
def fsV2 : FS :=
  [(declPath, "decl-v2"),
   ("ping.json", "\x7b\"ok\":true\x7d"),
   ("pong.json", "\x7b\"pong\":true\x7d")]

/-- Disk with a malformed declaration. -/
def fsBad : FS :=
  [(declPath, "decl-oops"),
   ("ping.json", "\x7b\"ok\":true\x7d"),
   ("pong.json", "\x7b\"pong\":true\x7d")]

/-- Disk for the unsupported-method fixture; both response files exist. -/
def fsUnsup : FS :=
  [(declPath, "decl-unsup"),
   ("ping.json", "\x7b\"ok\":true\x7d"),
   ("weird.json", "\x7b\"weird\":true\x7d")]

/-- The state `main` reaches at startup on `fsV1`. -/
def stateV1 : ServerState :=
  { engine := [{ method := "GET", fullPath := "/api/ping",
                 responseFile := "ping.json" }],
    config := configV1,
    watched := [declPath, "ping.json"],
    logs := [] }

/-- The state after the watcher goroutine processes the Write event of the
decl-v1 → decl-v2 edit: `config` is overwritten with `configV2`, while the
engine and the watch set keep their startup values. -/
def stateV2 : ServerState :=
  { engine := [{ method := "GET", fullPath := "/api/ping",
                 responseFile := "ping.json" }],
    config := configV2,
    watched := [declPath, "ping.json"],
    logs := ["File modified: ./config.yaml"] }

/-- Disk after ping.json is deleted: the declaration and pong.json remain. -/
def fsDeleted : FS :=
  [(declPath, "decl-v1"),
   ("pong.json", "\x7b\"pong\":true\x7d")]

/-- Whether some two routes of the list share a RouteKey. -/
def hasDupKey : List Route → Bool
  | [] => false
  | r :: rest => rest.any (routeKeyEq r) || hasDupKey rest

/-- The routes `setupRouter` attempts to register for one service's
endpoints, in declared order (supported methods only). -/
def compileEndpoints (basePath : String) : List Endpoint → List Route
  | [] => []
  | e :: rest =>
    if e.method = "GET" then
      ⟨"GET", basePath ++ e.path, e.responseFile⟩ :: compileEndpoints basePath rest
    else if e.method = "POST" then
      ⟨"POST", basePath ++ e.path, e.responseFile⟩ :: compileEndpoints basePath rest
    else compileEndpoints basePath rest

/-- The routes `setupRouter` attempts to register, in declared order. -/
def compileRoutes : List Service → List Route
  | [] => []
  | s :: rest => compileEndpoints s.basePath s.endpoints ++ compileRoutes rest

/-- Register a list of routes one by one, stopping at the first collision. -/
def registerAll (engine : List Route) : List Route → Except String (List Route)
  | [] => .ok engine
  | r :: rest =>
    match addRoute engine r with
    | .error e => .error e
    | .ok engine2 => registerAll engine2 rest

/-- Whether an `Except` computation succeeded. -/
def exceptOk {ε α : Type} : Except ε α → Bool
  | .ok _ => true
  | .error _ => false

theorem routeKeyEq_refl (r : Route) : routeKeyEq r r = true := by
  simp [routeKeyEq]

theorem routeKeyEq_true_iff (a b : Route) :
    routeKeyEq a b = true ↔ a.method = b.method ∧ a.fullPath = b.fullPath := by
  simp [routeKeyEq]

theorem routeKeyEq_comm (a b : Route) : routeKeyEq a b = routeKeyEq b a := by
  rw [Bool.eq_iff_iff, routeKeyEq_true_iff, routeKeyEq_true_iff]
  constructor
  · rintro ⟨h1, h2⟩
    exact ⟨h1.symm, h2.symm⟩
  · rintro ⟨h1, h2⟩
    exact ⟨h1.symm, h2.symm⟩

theorem registerAll_append (xs : List Route) :
    ∀ (ys : List Route) (engine : List Route),
      registerAll engine (xs ++ ys) =
        match registerAll engine xs with
        | .error e => .error e
        | .ok en => registerAll en ys := by
  induction xs with
  | nil => intro ys engine; rfl
  | cons x xs ih =>
    intro ys engine
    show registerAll engine (x :: (xs ++ ys)) = _
    simp only [registerAll]
    cases addRoute engine x with
    | error e => rfl
    | ok en => exact ih ys en

theorem registerEndpoints_eq (basePath : String) :
    ∀ (es : List Endpoint) (engine : List Route),
      registerEndpoints engine basePath es =
        registerAll engine (compileEndpoints basePath es) := by
  intro es
  induction es with
  | nil => intro engine; rfl
  | cons e rest ih =>
    intro engine
    by_cases hg : e.method = "GET"
    · simp only [registerEndpoints, compileEndpoints, hg, if_pos, registerAll]
      cases addRoute engine ⟨"GET", basePath ++ e.path, e.responseFile⟩ with
      | error err => rfl
      | ok engine2 => exact ih engine2
    · by_cases hp : e.method = "POST"
      · simp only [registerEndpoints, compileEndpoints, hg, hp, if_neg,
          if_pos, registerAll, reduceIte]
        cases addRoute engine ⟨"POST", basePath ++ e.path, e.responseFile⟩ with
        | error err => rfl
        | ok engine2 => exact ih engine2
      · simp only [registerEndpoints, compileEndpoints, hg, hp, if_neg,
          reduceIte]
        exact ih engine

theorem registerServices_eq :
    ∀ (ss : List Service) (engine : List Route),
      registerServices engine ss = registerAll engine (compileRoutes ss) := by
  intro ss
  induction ss with
  | nil => intro engine; rfl
  | cons s rest ih =>
    intro engine
    simp only [registerServices, compileRoutes]
    rw [registerEndpoints_eq, registerAll_append]
    cases registerAll engine (compileEndpoints s.basePath s.endpoints) with
    | error e => rfl
    | ok en => exact ih en

theorem setupRouter_eq (c : Config) :
    setupRouter c = registerAll [] (compileRoutes c.services) := by
  rw [setupRouter, registerServices_eq]

theorem any_key_false {α : Type} {l : List α} {f : α → Bool}
    (h : l.any f = false) {x : α} (hx : x ∈ l) : f x = false := by
  cases hfx : f x with
  | false => rfl
  | true =>
    have : l.any f = true := List.any_eq_true.mpr ⟨x, hx, hfx⟩
    rw [h] at this
    exact absurd this Bool.false_ne_true

theorem any_false_of_forall {α : Type} {l : List α} {f : α → Bool}
    (h : ∀ x ∈ l, f x = false) : l.any f = false := by
  cases hl : l.any f with
  | false => rfl
  | true =>
    obtain ⟨x, hx, hfx⟩ := List.any_eq_true.mp hl
    rw [h x hx] at hfx
    exact absurd hfx Bool.false_ne_true

theorem addRoute_ok {engine : List Route} {r : Route}
    (h : engine.any (routeKeyEq r) = false) :
    addRoute engine r = .ok (engine ++ [r]) := by
  simp [addRoute, h]

theorem addRoute_err {engine : List Route} {r : Route}
    (h : engine.any (routeKeyEq r) = true) :
    addRoute engine r =
      .error ("handlers are already registered for path " ++ r.fullPath) := by
  simp [addRoute, h]

theorem registerAll_ok (rs : List Route) :
    ∀ engine, hasDupKey rs = false →
      (∀ r ∈ rs, engine.any (routeKeyEq r) = false) →
      registerAll engine rs = .ok (engine ++ rs) := by
  induction rs with
  | nil =>
    intro engine _ _
    simp [registerAll]
  | cons r rest ih =>
    intro engine hnd hcl
    rw [hasDupKey, Bool.or_eq_false_iff] at hnd
    have hr : engine.any (routeKeyEq r) = false := hcl r (List.mem_cons_self r rest)
    simp only [registerAll, addRoute_ok hr]
    rw [ih (engine ++ [r]) hnd.2 ?_]
    · simp
    · intro q hq
      rw [List.any_append]
      rw [hcl q (List.mem_cons_of_mem r hq)]
      have h1 : routeKeyEq q r = false := by
        rw [routeKeyEq_comm]
        exact any_key_false hnd.1 hq
      simp [List.any, h1]

theorem registerAll_conflict (rs : List Route) :
    ∀ engine, (∃ q ∈ rs, engine.any (routeKeyEq q) = true) →
      ∃ e, registerAll engine rs = .error e := by
  induction rs with
  | nil =>
    rintro engine ⟨q, hq, -⟩
    exact absurd hq (List.not_mem_nil q)
  | cons r rest ih =>
    rintro engine ⟨q, hq, hconf⟩
    cases hr : engine.any (routeKeyEq r) with
    | true =>
      refine ⟨"handlers are already registered for path " ++ r.fullPath, ?_⟩
      simp only [registerAll, addRoute_err hr]
    | false =>
      rcases List.mem_cons.mp hq with rfl | hq2
      · rw [hconf] at hr
        simp at hr
      · have hstill : (engine ++ [r]).any (routeKeyEq q) = true := by
          rw [List.any_append, hconf]
          rfl
        obtain ⟨e, he⟩ := ih (engine ++ [r]) ⟨q, hq2, hstill⟩
        refine ⟨e, ?_⟩
        simp only [registerAll, addRoute_ok hr]
        exact he

theorem registerAll_dup (rs : List Route) :
    ∀ engine, hasDupKey rs = true → ∃ e, registerAll engine rs = .error e := by
  induction rs with
  | nil =>
    intro engine h
    exact absurd h (by simp [hasDupKey])
  | cons r rest ih =>
    intro engine h
    cases hr : engine.any (routeKeyEq r) with
    | true =>
      refine ⟨"handlers are already registered for path " ++ r.fullPath, ?_⟩
      simp only [registerAll, addRoute_err hr]
    | false =>
      rw [hasDupKey, Bool.or_eq_true] at h
      rcases h with hconf | hdup
      · obtain ⟨q, hq, hqr⟩ := List.any_eq_true.mp hconf
        have hstill : (engine ++ [r]).any (routeKeyEq q) = true := by
          have hc : routeKeyEq q r = true := by
            rw [routeKeyEq_comm]
            exact hqr
          rw [List.any_append]
          simp [List.any, hc]
        obtain ⟨e, he⟩ := registerAll_conflict rest (engine ++ [r]) ⟨q, hq, hstill⟩
        refine ⟨e, ?_⟩
        simp only [registerAll, addRoute_ok hr]
        exact he
      · obtain ⟨e, he⟩ := ih (engine ++ [r]) hdup
        refine ⟨e, ?_⟩
        simp only [registerAll, addRoute_ok hr]
        exact he

theorem setupRouter_ok_iff (c : Config) (engine : List Route)
    (h : setupRouter c = .ok engine) :
    engine = compileRoutes c.services ∧
      hasDupKey (compileRoutes c.services) = false := by
  cases hdup : hasDupKey (compileRoutes c.services) with
  | true =>
    obtain ⟨e, he⟩ := registerAll_dup (compileRoutes c.services) [] hdup
    rw [setupRouter_eq, he] at h
    exact absurd h (by simp)
  | false =>
    have hok := registerAll_ok (compileRoutes c.services) [] hdup
      (fun r _ => rfl)
    rw [setupRouter_eq, hok, List.nil_append] at h
    cases h
    exact ⟨rfl, rfl⟩

theorem setupRouter_of_no_dup (c : Config)
    (hdup : hasDupKey (compileRoutes c.services) = false) :
    setupRouter c = .ok (compileRoutes c.services) := by
  have hok := registerAll_ok (compileRoutes c.services) [] hdup (fun r _ => rfl)
  rw [setupRouter_eq, hok, List.nil_append]

theorem setupRouter_of_dup (c : Config)
    (hdup : hasDupKey (compileRoutes c.services) = true) :
    ∃ e, setupRouter c = .error e := by
  obtain ⟨e, he⟩ := registerAll_dup (compileRoutes c.services) [] hdup
  rw [setupRouter_eq]
  exact ⟨e, he⟩

theorem find_key_unique (l : List Route) :
    ∀ (r : Route), hasDupKey l = false → r ∈ l →
      l.find? (fun q => q.method == r.method && q.fullPath == r.fullPath) =
        some r := by
  induction l with
  | nil =>
    intro r _ hr
    exact absurd hr (List.not_mem_nil r)
  | cons h t ih =>
    intro r hnd hr
    rw [hasDupKey, Bool.or_eq_false_iff] at hnd
    rcases List.mem_cons.mp hr with rfl | hrt
    · rw [List.find?_cons_of_pos]
      simp [routeKeyEq]
    · have hpred : routeKeyEq h r = false := any_key_false hnd.1 hrt
      rw [List.find?_cons_of_neg]
      · exact ih r hnd.2 hrt
      · rw [show (h.method == r.method && h.fullPath == r.fullPath) =
            routeKeyEq h r from rfl, hpred]
        simp

theorem mem_compileEndpoints (basePath : String) (es : List Endpoint)
    (e : Endpoint) (he : e ∈ es)
    (hm : e.method = "GET" ∨ e.method = "POST") :
    (⟨e.method, basePath ++ e.path, e.responseFile⟩ : Route) ∈
      compileEndpoints basePath es := by
  induction es with
  | nil => exact absurd he (List.not_mem_nil e)
  | cons e0 rest ih =>
    rcases List.mem_cons.mp he with rfl | he2
    · rcases hm with hg | hp
      · simp only [compileEndpoints, if_pos hg, hg]
        exact List.mem_cons_self _ _
      · have hg : ¬ e.method = "GET" := by
          rw [hp]
          decide
        simp only [compileEndpoints, if_neg hg, if_pos hp, hp]
        exact List.mem_cons_self _ _
    · simp only [compileEndpoints]
      split_ifs with h1 h2
      · exact List.mem_cons_of_mem _ (ih he2)
      · exact List.mem_cons_of_mem _ (ih he2)
      · exact ih he2

theorem mem_compileRoutes {ss : List Service} {s : Service} (hs : s ∈ ss)
    {e : Endpoint} (he : e ∈ s.endpoints)
    (hm : e.method = "GET" ∨ e.method = "POST") :
    (⟨e.method, s.basePath ++ e.path, e.responseFile⟩ : Route) ∈
      compileRoutes ss := by
  induction ss with
  | nil => exact absurd hs (List.not_mem_nil s)
  | cons s0 rest ih =>
    rcases List.mem_cons.mp hs with rfl | hs2
    · exact List.mem_append_left _ (mem_compileEndpoints s.basePath s.endpoints e he hm)
    · exact List.mem_append_right _ (ih hs2)

theorem mem_compileEndpoints_inv {basePath : String} {es : List Endpoint}
    {r : Route} (hr : r ∈ compileEndpoints basePath es) :
    ∃ e ∈ es, r.method = e.method ∧ (e.method = "GET" ∨ e.method = "POST") ∧
      r.fullPath = basePath ++ e.path ∧ r.responseFile = e.responseFile := by
  induction es with
  | nil => simp [compileEndpoints] at hr
  | cons e rest ih =>
    simp only [compileEndpoints] at hr
    split_ifs at hr with h1 h2
    · rcases List.mem_cons.mp hr with rfl | hr2
      · exact ⟨e, List.mem_cons_self e rest, h1.symm, Or.inl h1, rfl, rfl⟩
      · obtain ⟨e2, he2, hprops⟩ := ih hr2
        exact ⟨e2, List.mem_cons_of_mem e he2, hprops⟩
    · rcases List.mem_cons.mp hr with rfl | hr2
      · exact ⟨e, List.mem_cons_self e rest, h2.symm, Or.inr h2, rfl, rfl⟩
      · obtain ⟨e2, he2, hprops⟩ := ih hr2
        exact ⟨e2, List.mem_cons_of_mem e he2, hprops⟩
    · obtain ⟨e2, he2, hprops⟩ := ih hr
      exact ⟨e2, List.mem_cons_of_mem e he2, hprops⟩

theorem mem_compileRoutes_inv {ss : List Service} {r : Route}
    (hr : r ∈ compileRoutes ss) :
    ∃ s ∈ ss, ∃ e ∈ s.endpoints,
      r.method = e.method ∧ (e.method = "GET" ∨ e.method = "POST") ∧
      r.fullPath = s.basePath ++ e.path ∧ r.responseFile = e.responseFile := by
  induction ss with
  | nil => simp [compileRoutes] at hr
  | cons s rest ih =>
    rw [compileRoutes] at hr
    rcases List.mem_append.mp hr with hl | hrr
    · obtain ⟨e, he, hprops⟩ := mem_compileEndpoints_inv hl
      exact ⟨s, List.mem_cons_self s rest, e, he, hprops⟩
    · obtain ⟨s2, hs2, rest2⟩ := ih hrr
      exact ⟨s2, List.mem_cons_of_mem s hs2, rest2⟩

theorem compileRoutes_method_supported {ss : List Service} {r : Route}
    (hr : r ∈ compileRoutes ss) : r.method = "GET" ∨ r.method = "POST" := by
  obtain ⟨s, -, e, -, hm, hsup, -, -⟩ := mem_compileRoutes_inv hr
  rw [hm]
  exact hsup

/-- C5: dispatch hit correctness with read-through — for every compiled
endpoint (service in the config, endpoint with a supported method), a
request with the endpoint's method at basePath ++ path is answered with
status 200, a JSON content type, and exactly the bytes of the endpoint's
response file as read from the request-time filesystem. -/
theorem C5_dispatch_hit (c : Config) (engine : List Route) (fs : FS)
    (s : Service) (e : Endpoint) (data : String)
    (hok : setupRouter c = .ok engine)
    (hs : s ∈ c.services) (he : e ∈ s.endpoints)
    (hm : e.method = "GET" ∨ e.method = "POST")
    (hread : readJSONFile fs e.responseFile = .ok data) :
    dispatch engine fs e.method (s.basePath ++ e.path) =
      { status := 200, contentType := "application/json", body := data } := by
  obtain ⟨rfl, hnd⟩ := setupRouter_ok_iff c engine hok
  have hmem := mem_compileRoutes hs he hm
  have hfind := find_key_unique (compileRoutes c.services)
    ⟨e.method, s.basePath ++ e.path, e.responseFile⟩ hnd hmem
  dsimp only at hfind
  simp only [dispatch, hfind, runHandler, hread]

/-- C5 witness: the spec's example — basePath /api, endpoint GET /ping
with ping.json containing the bytes "ok: true" (as JSON) yields 200 with
exactly those bytes. -/
theorem C5_dispatch_hit_witness :
    dispatch stateV1.engine fsV1 "GET" "/api/ping" =
      { status := 200, contentType := "application/json",
        body := "\x7b\"ok\":true\x7d" } :=
  C5_dispatch_hit configV1 stateV1.engine fsV1
    { name := "demo", basePath := "/api", endpoints := [pingEndpoint] }
    pingEndpoint "\x7b\"ok\":true\x7d" rfl (by decide) (by decide)
    (Or.inl rfl) rfl

/-- C6: for a matched route whose response file is unreadable at request
time, the request is answered 500 with the JSON error body, the process
does not crash (serving is a total function), and the server state —
including the published route table — is returned unchanged. -/
theorem C6_dispatch_server_error (c : Config) (engine : List Route) (fs : FS)
    (s : Service) (e : Endpoint) (msg : String) (st : ServerState)
    (hok : setupRouter c = .ok engine)
    (hs : s ∈ c.services) (he : e ∈ s.endpoints)
    (hm : e.method = "GET" ∨ e.method = "POST")
    (hread : readJSONFile fs e.responseFile = .error msg)
    (hst : st.engine = engine) :
    serveRequest st fs e.method (s.basePath ++ e.path) =
      ({ status := 500, contentType := "application/json",
         body := jsonErrorBody msg }, st) := by
  obtain ⟨rfl, hnd⟩ := setupRouter_ok_iff c engine hok
  have hmem := mem_compileRoutes hs he hm
  have hfind := find_key_unique (compileRoutes c.services)
    ⟨e.method, s.basePath ++ e.path, e.responseFile⟩ hnd hmem
  dsimp only at hfind
  rw [serveRequest, hst]
  simp only [dispatch, hfind, runHandler, hread]

/-- C6 witness: delete ping.json after the table was compiled; GET
/api/ping answers 500 with a JSON error body and the state (and so the
dangling table entry) is unchanged. -/
theorem C6_dispatch_server_error_witness :
    serveRequest stateV1 fsDeleted "GET" "/api/ping" =
      ({ status := 500, contentType := "application/json",
         body := jsonErrorBody "open ping.json: no such file or directory" },
       stateV1) :=
  C6_dispatch_server_error configV1 stateV1.engine fsDeleted
    { name := "demo", basePath := "/api", endpoints := [pingEndpoint] }
    pingEndpoint "open ping.json: no such file or directory" stateV1
    rfl (by decide) (by decide) (Or.inl rfl) rfl rfl

/-- C8: routes are keyed by (method, fullPath) — if every endpoint whose
full path is p is declared with method GET, a POST request at p matches
no route entry and gets gin's default not-found response. -/
theorem C8_method_keyed (c : Config) (engine : List Route) (fs : FS)
    (p : String)
    (hok : setupRouter c = .ok engine)
    (honlyget : ∀ s ∈ c.services, ∀ e ∈ s.endpoints,
      s.basePath ++ e.path = p → e.method = "GET") :
    dispatch engine fs "POST" p = notFoundResponse := by
  obtain ⟨rfl, -⟩ := setupRouter_ok_iff c engine hok
  have hnone : (compileRoutes c.services).find?
      (fun r => r.method == "POST" && r.fullPath == p) = none := by
    rw [List.find?_eq_none]
    intro q hq hcontra
    rw [Bool.and_eq_true, beq_iff_eq, beq_iff_eq] at hcontra
    obtain ⟨s, hs, e, he, hmeq, -, hfp, -⟩ := mem_compileRoutes_inv hq
    have hget : e.method = "GET" := by
      apply honlyget s hs e he
      rw [← hfp]
      exact hcontra.2
    rw [hmeq, hget] at hcontra
    exact absurd hcontra.1 (by decide)
  simp only [dispatch, hnone]

/-- C8 witness: the fixture declares only GET /api/ping, so a POST to
/api/ping is not found. -/
theorem C8_method_keyed_witness :
    dispatch stateV1.engine fsV1 "POST" "/api/ping" = notFoundResponse :=
  C8_method_keyed configV1 stateV1.engine fsV1 "/api/ping" rfl (by decide)

/-- C2: a failed reload is atomic and non-fatal — on a Write event for
which loading the declaration fails, the watcher logs the error and the
resulting state differs from the previous one only in the log: the
published config, the engine (whose closures drive dispatch) and the
watch set are all unchanged, and the step returns normally (the goroutine
does `continue`, never a fatal exit). -/
theorem C2_failed_reload_atomic (parse : String → Except String Config)
    (fs : FS) (st : ServerState) (ev : FsEvent) (msg : String)
    (hw : ev.op &&& opWrite = opWrite)
    (hfail : loadConfig parse fs declPath = .error msg) :
    watcherStep parse fs st ev =
      .ok { st with logs := st.logs ++
              ["File modified: " ++ ev.name,
               "Failed to reload config: " ++ msg] } := by
  have hcond : (ev.op &&& opWrite == opWrite) = true := beq_iff_eq.mpr hw
  simp [watcherStep, hcond, hfail]

/-- C2 witness: a malformed declaration edit on the running fixture server
leaves everything but the log unchanged. -/
theorem C2_failed_reload_atomic_witness :
    watcherStep demoParse fsBad stateV1 ⟨"./config.yaml", opWrite⟩ =
      .ok { stateV1 with logs := stateV1.logs ++
              ["File modified: ./config.yaml",
               "Failed to reload config: yaml: unmarshal errors"] } :=
  C2_failed_reload_atomic demoParse fsBad stateV1 ⟨"./config.yaml", opWrite⟩
    "yaml: unmarshal errors" (by decide) rfl

/-- C9: a load/parse failure at the very first load is fatal — `startup`
exits with `log.Fatalf` before serving — while the same failing
`loadConfig` during any later watcher iteration always returns a running
state (the goroutine only logs and continues). -/
theorem C9_first_load_fatal (parse : String → Except String Config)
    (fs : FS) (msg : String)
    (hfail : loadConfig parse fs declPath = .error msg) :
    startup parse fs = .error ("Failed to load config: " ++ msg) ∧
      ∀ st ev, exceptOk (watcherStep parse fs st ev) = true := by
  constructor
  · simp only [startup, hfail]
  · intro st ev
    cases hcond : (ev.op &&& opWrite == opWrite) with
    | false => simp [watcherStep, hcond, exceptOk]
    | true => simp [watcherStep, hcond, hfail, exceptOk]

/-- C9 witness: the malformed-declaration disk is fatal at startup but
harmless to a later watcher iteration of the running fixture server. -/
theorem C9_first_load_fatal_witness :
    startup demoParse fsBad =
        .error ("Failed to load config: " ++ "yaml: unmarshal errors") ∧
      exceptOk (watcherStep demoParse fsBad stateV1 ⟨declPath, opWrite⟩) =
        true :=
  ⟨(C9_first_load_fatal demoParse fsBad "yaml: unmarshal errors" rfl).1,
   (C9_first_load_fatal demoParse fsBad "yaml: unmarshal errors" rfl).2
     stateV1 ⟨declPath, opWrite⟩⟩

/-- C10: the watcher reacts exactly to the Write bit — an event without
the Write bit leaves the state untouched (no reload, no log, whatever its
path), while an event with the Write bit on ANY path triggers a reload of
the declaration file: on load success the config is replaced, on load
failure only the log grows. -/
theorem C10_write_events_only (parse : String → Except String Config)
    (fs : FS) (st : ServerState) (name : String) (op : Nat) :
    (op &&& opWrite ≠ opWrite →
      watcherStep parse fs st ⟨name, op⟩ = .ok st) ∧
    (op &&& opWrite = opWrite →
      (∀ c2, loadConfig parse fs declPath = .ok c2 →
        watcherStep parse fs st ⟨name, op⟩ =
          .ok { st with config := c2,
                        logs := st.logs ++ ["File modified: " ++ name] }) ∧
      (∀ msg, loadConfig parse fs declPath = .error msg →
        watcherStep parse fs st ⟨name, op⟩ =
          .ok { st with logs := st.logs ++
                  ["File modified: " ++ name,
                   "Failed to reload config: " ++ msg] })) := by
  constructor
  · intro hneq
    have hcond : (op &&& opWrite == opWrite) = false :=
      beq_eq_false_iff_ne.mpr hneq
    simp [watcherStep, hcond]
  · intro heq
    have hcond : (op &&& opWrite == opWrite) = true := beq_iff_eq.mpr heq
    constructor
    · intro c2 hload
      simp [watcherStep, hcond, hload]
    · intro msg hload
      simp [watcherStep, hcond, hload]

/-- C10 witness: on the running fixture server a Chmod event on a watched
response file produces no reload, while a Write event on that same
response file (not the declaration file!) reloads the declaration file
and publishes the new config. -/
theorem C10_write_events_only_witness :
    watcherStep demoParse fsV2 stateV1 ⟨"ping.json", opChmod⟩ = .ok stateV1 ∧
    watcherStep demoParse fsV2 stateV1 ⟨"ping.json", opWrite⟩ =
      .ok { stateV1 with config := configV2,
                         logs := stateV1.logs ++ ["File modified: ping.json"] } :=
  ⟨(C10_write_events_only demoParse fsV2 stateV1 "ping.json" opChmod).1
      (by decide),
   ((C10_write_events_only demoParse fsV2 stateV1 "ping.json" opWrite).2
      (by decide)).1 configV2 rfl⟩

/-- C1 (code bug): a successful reload is NOT visible to request
handling.  Concretely: startup publishes the decl-v1 table (GET /api/ping
served from ping.json); the declaration is edited to decl-v2 (the same
route now names pong.json, whose bytes differ and are readable); the
watcher processes the Write event and the reload succeeds, overwriting
the config struct with the new declaration — yet a request dispatched
after the reload is still served the bytes of ping.json, the response
file captured by the handler closure at startup, because `setupRouter`'s
closures are never rebuilt.  The code serves the startup table, while the
claim (and the spec) require the newly published table. -/
theorem C1_reload_not_visible :
    startup demoParse fsV1 = .ok stateV1 ∧
    watcherStep demoParse fsV2 stateV1 ⟨declPath, opWrite⟩ = .ok stateV2 ∧
    stateV2.config = configV2 ∧
    configV2.services = [{ name := "demo", basePath := "/api",
                           endpoints := [{ path := "/ping", method := "GET",
                                           responseFile := "pong.json" }] }] ∧
    readJSONFile fsV2 "pong.json" = .ok "\x7b\"pong\":true\x7d" ∧
    (serveRequest stateV2 fsV2 "GET" "/api/ping").1 =
      { status := 200, contentType := "application/json",
        body := "\x7b\"ok\":true\x7d" } :=
  ⟨rfl, rfl, rfl, rfl, rfl, rfl⟩

/-- C3 counterexample: two endpoints compiling to the same RouteKey (GET
/api/ping) with different response files do NOT compile successfully with
the later one winning — gin's duplicate-registration panic aborts
`setupRouter`, refuting "compilation succeeds and ... a non-fatal
warning, not an error". -/
theorem C3_duplicate_counterexample :
    setupRouter configDup =
      .error "handlers are already registered for path /api/ping" := by
  rfl

/-- C3 amended: duplicate RouteKeys within one declaration make route
registration fail (gin panics on the duplicate registration), so there is
no last-declared-wins policy; a declaration whose compiled RouteKeys are
all distinct registers exactly its declared routes, in order. -/
theorem C3_duplicate_fails (c : Config) :
    (hasDupKey (compileRoutes c.services) = true →
      exceptOk (setupRouter c) = false) ∧
    (hasDupKey (compileRoutes c.services) = false →
      setupRouter c = .ok (compileRoutes c.services)) := by
  constructor
  · intro hdup
    obtain ⟨e, he⟩ := setupRouter_of_dup c hdup
    rw [he]
    rfl
  · exact setupRouter_of_no_dup c

/-- C3 amended witness: the duplicate fixture fails registration; the
duplicate-free fixture registers its declared routes. -/
theorem C3_duplicate_fails_witness :
    exceptOk (setupRouter configDup) = false ∧
      setupRouter configV1 = .ok (compileRoutes configV1.services) :=
  ⟨(C3_duplicate_fails configDup).1 (by decide),
   (C3_duplicate_fails configV1).2 (by decide)⟩

/-- C4 counterexample: after a successful reload that makes pong.json a
referenced response file of the current table, the watch set is NOT
recomputed — it still holds only the startup paths and misses pong.json,
refuting "after every successful reload the watch subscriptions are
recomputed". -/
theorem C4_watchset_counterexample :
    watcherStep demoParse fsV2 stateV1 ⟨declPath, opWrite⟩ = .ok stateV2 ∧
    stateV2.config.services = [{ name := "demo", basePath := "/api",
                                 endpoints := [{ path := "/ping", method := "GET",
                                                 responseFile := "pong.json" }] }] ∧
    stateV2.watched = [declPath, "ping.json"] ∧
    ¬ "pong.json" ∈ stateV2.watched := by
  refine ⟨rfl, rfl, rfl, ?_⟩
  decide

/-- C4 amended: the watched-path set is computed once at startup (the
declaration file plus the response files of the startup declaration that
exist then) and is never recomputed: every watcher iteration, reload
success or failure, leaves the watch subscriptions (and the engine)
unchanged, so files newly referenced after startup are never watched. -/
theorem C4_watchset_never_recomputed (parse : String → Except String Config)
    (fs : FS) (st : ServerState) (ev : FsEvent) (st2 : ServerState)
    (h : watcherStep parse fs st ev = .ok st2) :
    st2.watched = st.watched ∧ st2.engine = st.engine := by
  rw [watcherStep] at h
  by_cases hcond : (ev.op &&& opWrite == opWrite) = true
  · rw [if_pos hcond] at h
    cases hload : loadConfig parse fs declPath with
    | error e =>
      rw [hload] at h
      cases h
      exact ⟨rfl, rfl⟩
    | ok c2 =>
      rw [hload] at h
      cases h
      exact ⟨rfl, rfl⟩
  · rw [if_neg hcond] at h
    cases h
    exact ⟨rfl, rfl⟩

/-- C4 amended witness: the successful decl-v1 → decl-v2 reload leaves
the watch set and engine exactly as at startup. -/
theorem C4_watchset_never_recomputed_witness :
    stateV2.watched = stateV1.watched ∧ stateV2.engine = stateV1.engine :=
  C4_watchset_never_recomputed demoParse fsV2 stateV1 ⟨declPath, opWrite⟩
    stateV2 rfl

/-- C7 counterexample: compiling a declaration with an unsupported-method
endpoint (PUT /weird) does skip that endpoint and keep the rest, but NO
warning is recorded — the `switch` in `setupRouter` has no default case
and logs nothing, so the startup log is empty — refuting "records a
warning". -/
theorem C7_no_warning_counterexample :
    startup demoParse fsUnsup = .ok
      { engine := [{ method := "GET", fullPath := "/api/ping",
                     responseFile := "ping.json" }],
        config := configUnsup,
        watched := [declPath, "ping.json", "weird.json"],
        logs := [] } := by
  rfl

/-- C7 amended: an endpoint whose method is neither GET nor POST is
silently skipped — no route with its method is compiled (so a request
with that method is not found) and no warning is recorded — while every
supported endpoint is still compiled and compilation does not fail on its
account. -/
theorem C7_unsupported_silently_skipped (c : Config) (s : Service)
    (e : Endpoint) (hs : s ∈ c.services) (he : e ∈ s.endpoints)
    (hg : e.method ≠ "GET") (hp : e.method ≠ "POST") :
    (∀ r ∈ compileRoutes c.services, r.method ≠ e.method) ∧
    (∀ engine fs, setupRouter c = .ok engine →
      dispatch engine fs e.method (s.basePath ++ e.path) = notFoundResponse) ∧
    (∀ s2, s2 ∈ c.services → ∀ e2, e2 ∈ s2.endpoints →
      e2.method = "GET" ∨ e2.method = "POST" →
      (⟨e2.method, s2.basePath ++ e2.path, e2.responseFile⟩ : Route) ∈
        compileRoutes c.services) := by
  refine ⟨?_, ?_, ?_⟩
  · intro r hr
    rcases compileRoutes_method_supported hr with h | h <;> rw [h]
    · exact fun hc => hg hc.symm
    · exact fun hc => hp hc.symm
  · intro engine fs hok
    obtain ⟨rfl, -⟩ := setupRouter_ok_iff c engine hok
    have hnone : (compileRoutes c.services).find?
        (fun r => r.method == e.method &&
          r.fullPath == (s.basePath ++ e.path)) = none := by
      rw [List.find?_eq_none]
      intro q hq hcontra
      rw [Bool.and_eq_true, beq_iff_eq, beq_iff_eq] at hcontra
      rcases compileRoutes_method_supported hq with h | h
      · rw [hcontra.1] at h
        exact hg h
      · rw [hcontra.1] at h
        exact hp h
    simp only [dispatch, hnone]
  · intro s2 hs2 e2 he2 hm2
    exact mem_compileRoutes hs2 he2 hm2

/-- C7 amended witness: on the unsupported-method fixture — PUT is not the
method of any compiled route, a PUT request to the skipped endpoint's
path is not found, and the supported GET endpoint is still compiled. -/
theorem C7_unsupported_silently_skipped_witness :
    ("GET" : String) ≠ "PUT" ∧
    dispatch [{ method := "GET", fullPath := "/api/ping",
                responseFile := "ping.json" }] fsUnsup "PUT" "/api/weird" =
      notFoundResponse ∧
    ({ method := "GET", fullPath := "/api/ping",
       responseFile := "ping.json" } : Route) ∈
      compileRoutes configUnsup.services :=
  ⟨(C7_unsupported_silently_skipped configUnsup
      { name := "demo", basePath := "/api",
        endpoints := [pingEndpoint, { path := "/weird", method := "PUT",
                                      responseFile := "weird.json" }] }
      { path := "/weird", method := "PUT", responseFile := "weird.json" }
      (by decide) (by decide) (by decide) (by decide)).1
      { method := "GET", fullPath := "/api/ping", responseFile := "ping.json" }
      (by decide),
   (C7_unsupported_silently_skipped configUnsup
      { name := "demo", basePath := "/api",
        endpoints := [pingEndpoint, { path := "/weird", method := "PUT",
                                      responseFile := "weird.json" }] }
      { path := "/weird", method := "PUT", responseFile := "weird.json" }
      (by decide) (by decide) (by decide) (by decide)).2.1
      [{ method := "GET", fullPath := "/api/ping",
         responseFile := "ping.json" }] fsUnsup rfl,
   (C7_unsupported_silently_skipped configUnsup
      { name := "demo", basePath := "/api",
        endpoints := [pingEndpoint, { path := "/weird", method := "PUT",
                                      responseFile := "weird.json" }] }
      { path := "/weird", method := "PUT", responseFile := "weird.json" }
      (by decide) (by decide) (by decide) (by decide)).2.2
      { name := "demo", basePath := "/api",
        endpoints := [pingEndpoint, { path := "/weird", method := "PUT",
                                      responseFile := "weird.json" }] }
      (by decide) pingEndpoint (by decide) (Or.inl rfl)⟩
